import Mathlib

/-!
Verification of the Netify movie backend (Express + OMDb proxy + MySQL
account store) against its natural-language specification.

The development shallowly embeds the request-proxy-and-normalization
pipeline of the repository:

* the record normalizer `formatMovie` (routes module, lines 73-100);
* the batch fetcher `fetchMoviesByTitles` (lines 107-125);
* the search endpoint handler (lines 261-315);
* the register and login handlers of the auth routes module
  (lines 374-503 of the same concatenated source file).

JavaScript values crossing these functions are modelled explicitly:
an optional string field of a JSON body or provider record is
`Option String` (`none` = the field is absent / `undefined`), JS
string truthiness is `truthy` (absent and the empty string are falsy),
and a JS number slot that can hold `null` or `NaN` is `NumVal`.
Provider calls are modelled as oracle functions returning
`Except String _` (`error` = the axios call threw, or the OMDb payload
carried `Response: "False"` and `fetchFromOMDB` re-threw).  Handlers
return an outcome record that, besides the HTTP status and JSON body
fields, records which store and provider interactions were performed,
so that claims of the form "no provider call is issued" are statable.
-/

/-- JS truthiness of an optional string value: `undefined` (absent) and
the empty string are falsy, every other string is truthy. -/
def truthy : Option String → Bool
  | none => false
  | some s => s != ""

/-- JS `a || b` on two optional string values: the first operand if it
is truthy, otherwise the second operand (even if falsy). -/
def jsOr (a b : Option String) : Option String :=
  if truthy a then a else b

/-- The JS whitespace characters relevant to `parseFloat`/`parseInt`
prefix skipping (ASCII subset; the exotic Unicode space characters never
occur in OMDb payloads and are not modelled). -/
def jsWhitespace (c : Char) : Bool :=
  c = ' ' || c = '\t' || c = '\n' || c = '\r' || c = '\x0b' || c = '\x0c'

/-- Numeric value of a decimal digit character. -/
def digitVal (c : Char) : Nat := c.toNat - '0'.toNat

/-- The natural number denoted by a list of decimal digit characters. -/
def digitsToNat (ds : List Char) : Nat :=
  ds.foldl (fun a c => 10 * a + digitVal c) 0

/-- Models JS `parseFloat` on sign/digits/decimal-point inputs: skip
leading whitespace, optional sign, an integer digit run, optionally a
point followed by a fraction digit run; `none` models the `NaN` result
when no digit at all was consumed.  The exponent form (`1e3`) is not
modelled; OMDb rating strings are plain decimals. -/
def jsParseFloat (s : String) : Option ℚ :=
  let cs := s.toList.dropWhile jsWhitespace
  let sgn : ℚ × List Char :=
    match cs with
    | '-' :: t => (-1, t)
    | '+' :: t => (1, t)
    | t => (1, t)
  let ip := sgn.2.takeWhile Char.isDigit
  let rest := sgn.2.dropWhile Char.isDigit
  let fp : List Char :=
    match rest with
    | '.' :: t => t.takeWhile Char.isDigit
    | _ => []
  if ip = [] ∧ fp = [] then none
  else some (sgn.1 * ((digitsToNat ip : ℚ) + (digitsToNat fp : ℚ) / (10 ^ fp.length)))

/-- Models JS `parseInt` with the default radix on decimal inputs: skip
leading whitespace, optional sign, then the longest decimal digit run;
`none` models the `NaN` result when no digit was consumed.  The `0x`
hex form is not modelled; OMDb vote counts are decimal. -/
def jsParseInt (s : String) : Option Int :=
  let cs := s.toList.dropWhile jsWhitespace
  let sgn : Int × List Char :=
    match cs with
    | '-' :: t => (-1, t)
    | '+' :: t => (1, t)
    | t => (1, t)
  let ds := sgn.2.takeWhile Char.isDigit
  if ds = [] then none else some (sgn.1 * digitsToNat ds)

/-- Models `s.replace(/,/g, '')`: remove every comma. -/
def stripCommas (s : String) : String :=
  String.mk (s.toList.filter (fun c => c != ','))

/-- A JS number slot as produced by the normalizer: `null`, `NaN`, or an
actual numeric value. -/
inductive NumVal where
  | null : NumVal
  | nan : NumVal
  | val : ℚ → NumVal
deriving DecidableEq, Repr

/-- A raw OMDb provider record: every field is an optional string
(`none` = absent from the JSON payload).  Any present field may carry
the provider sentinel string `"N/A"`. -/
structure OMDbMovie where
  imdbID : Option String := none
  Title : Option String := none
  Plot : Option String := none
  Poster : Option String := none
  Year : Option String := none
  imdbRating : Option String := none
  imdbVotes : Option String := none
  Genre : Option String := none
  Runtime : Option String := none
  Director : Option String := none
  Actors : Option String := none
deriving DecidableEq, Repr

/-- The normalized movie shape returned by `formatMovie`.  String-typed
slots that the source can leave `undefined` or set to `null` are
`Option String`; the two number slots are `NumVal`. -/
structure FormattedMovie where
  id : Option String
  title : Option String
  overview : String
  posterPath : Option String
  backdropPath : Option String
  releaseDate : Option String
  rating : NumVal
  voteCount : NumVal
  genre : String
  runtime : Option String
  director : Option String
  actors : Option String
deriving DecidableEq, Repr

/-- The condition `movie.X && movie.X !== 'N/A'` used by `formatMovie`:
the field is truthy and differs from the sentinel. -/
def presentNonSentinel (o : Option String) : Bool :=
  truthy o && (o.getD "" != "N/A")

/-- Embedding of `formatMovie` (routes module, lines 73-100), field by
field:
`rating = (imdbRating && imdbRating !== 'N/A') ? parseFloat(imdbRating) : null`,
`year = (Year && Year !== 'N/A') ? Year : null`,
`id: imdbID || Title`, `title: Title`,
`overview: Plot && Plot !== 'N/A' ? Plot : 'No description available.'`,
`posterPath`/`backdropPath`: `Poster && Poster !== 'N/A' ? Poster : null`,
`releaseDate: year`, `rating: rating`,
`voteCount: imdbVotes ? parseInt(imdbVotes.replace(/,/g, '')) : null`,
`genre: Genre || ''`, `runtime: Runtime`, `director: Director`,
`actors: Actors`. -/
def formatMovie (movie : OMDbMovie) : FormattedMovie :=
  let rating : NumVal :=
    if presentNonSentinel movie.imdbRating then
      match jsParseFloat (movie.imdbRating.getD "") with
      | some q => NumVal.val q
      | none => NumVal.nan
    else NumVal.null
  let year : Option String :=
    if presentNonSentinel movie.Year then movie.Year else none
  { id := jsOr movie.imdbID movie.Title
    title := movie.Title
    overview :=
      if presentNonSentinel movie.Plot then movie.Plot.getD ""
      else "No description available."
    posterPath := if presentNonSentinel movie.Poster then movie.Poster else none
    backdropPath := if presentNonSentinel movie.Poster then movie.Poster else none
    releaseDate := year
    rating := rating
    voteCount :=
      if truthy movie.imdbVotes then
        match jsParseInt (stripCommas (movie.imdbVotes.getD "")) with
        | some k => NumVal.val (k : ℚ)
        | none => NumVal.nan
      else NumVal.null
    genre := if truthy movie.Genre then movie.Genre.getD "" else ""
    runtime := movie.Runtime
    director := movie.Director
    actors := movie.Actors }

/-! ### Batch fetcher -/

/-- The title-lookup mode of the provider client: for each title,
either the call throws (axios error, or `fetchFromOMDB` re-throwing an
OMDb `Response: "False"` payload), or it resolves with a record. -/
abbrev TitleProvider := String → Except String OMDbMovie

/-- The value that one settled promise of `fetchMoviesByTitles`
contributes to the `Promise.all` result array: a formatted movie, the
explicit `null` returned by the catch branch, or the implicit
`undefined` of the fall-through when `data.Title` is falsy. -/
inductive CallResult where
  | movie : FormattedMovie → CallResult
  | null : CallResult
  | undef : CallResult
deriving DecidableEq, Repr

/-- The body of the `titles.map(async (title) => ...)` callback
(routes module, lines 111-121): on a thrown call, return `null`; on a
resolved record with a truthy `Title`, return `formatMovie(data)`;
otherwise fall through, resolving to `undefined`.  (The resolved record
itself is always an object, hence truthy, so `data && data.Title`
reduces to the truthiness of `data.Title`.) -/
def titleCall (provider : TitleProvider) (title : String) : CallResult :=
  match provider title with
  | Except.error _ => CallResult.null
  | Except.ok data =>
      if truthy data.Title then CallResult.movie (formatMovie data)
      else CallResult.undef

/-- Embedding of `fetchMoviesByTitles` (lines 107-125): map every title
through `titleCall` — `Promise.all` preserves the positional order of
the dispatched calls — then `results.filter(movie => movie !== null)`.
Note the filter removes only the `null` entries; an `undefined` entry
satisfies `movie !== null` and is kept. -/
def fetchMoviesByTitles (provider : TitleProvider) (titles : List String) :
    List CallResult :=
  (titles.map (titleCall provider)).filter (fun r => r != CallResult.null)

/-! ### Search endpoint -/

/-- A stub of the OMDb `s:` text-search result list; the handler only
reads its `imdbID` (passed to the detail fetch). -/
structure SearchStub where
  imdbID : String
deriving DecidableEq, Repr

/-- The payload of the OMDb `s:` text-search call as consumed by the
handler: `Search` is the optional hit array, and `totalResults` is the
count the provider reports.  OMDb transmits the count as a decimal
digit string; it is modelled by the natural number that string denotes
(`none` = field absent), under which both coercions the handler applies
to it — `(totalResults || 0) / 10` and `parseInt(totalResults) || 0` —
yield that number (or `0` when absent). -/
structure SearchData where
  Search : Option (List SearchStub) := none
  totalResults : Option Nat := none
deriving DecidableEq, Repr

/-- The key guard shared by every catalog handler:
`!OMDB_API_KEY || OMDB_API_KEY === 'your-omdb-api-key'`. -/
def keyMissing (apiKey : Option String) : Bool :=
  !truthy apiKey || (apiKey.getD "" == "your-omdb-api-key")

/-- Outcome of one `GET /api/movies/search` request: the HTTP status
and JSON body fields (`none` = the field is not part of the body), plus
a record of the provider interactions the handler performed:
`searchCalled` is whether the `s:` text-search call was issued, and
`detailCalls` lists the imdbIDs handed to the `i:` detail stage, in
dispatch order. -/
structure SearchOutcome where
  status : Nat
  success : Bool
  message : Option String
  page : Option Nat
  totalPages : Option Nat
  totalResults : Option Nat
  movies : Option (List FormattedMovie)
  searchCalled : Bool
  detailCalls : List String
deriving Repr

/-- Embedding of the `GET /api/movies/search` handler (lines 261-315).
`query` and `page` are the raw query parameters (`page` modelled as the
number its decimal string denotes, `none` = absent; `parseInt(page)||1`
then yields the number, or `1` when it is absent or `0`).  The two
provider stages are oracles: `searchOracle` is the result of the single
`s:` call, `detailOracle` the per-id result of the `i:` calls.  A
thrown search call lands in the outer catch (500, generic message); a
thrown detail call is caught per id, contributes `null`, and is removed
by the `filter(movie => movie !== null)` — here, unlike in
`fetchMoviesByTitles`, every successfully resolved detail record is
passed to `formatMovie` unconditionally, so no `undefined` entry can
arise.  `searchData.Search.slice(0, 8)` caps the detail stage at the
first 8 hits. -/
def searchHandler (apiKey : Option String) (query : Option String)
    (page : Option Nat) (searchOracle : Except String SearchData)
    (detailOracle : String → Except String OMDbMovie) : SearchOutcome :=
  if !truthy query then
    { status := 400, success := false, message := some "Search query is required"
      page := none, totalPages := none, totalResults := none, movies := none
      searchCalled := false, detailCalls := [] }
  else if keyMissing apiKey then
    { status := 500, success := false, message := some "OMDb API key not configured"
      page := none, totalPages := none, totalResults := none, movies := none
      searchCalled := false, detailCalls := [] }
  else
    match searchOracle with
    | Except.error _ =>
        { status := 500, success := false, message := some "Failed to search movies"
          page := none, totalPages := none, totalResults := none, movies := none
          searchCalled := true, detailCalls := [] }
    | Except.ok searchData =>
        let limitedResults : List SearchStub :=
          match searchData.Search with
          | some hits => hits.take 8
          | none => []
        let movies : List FormattedMovie :=
          limitedResults.filterMap (fun item =>
            match detailOracle item.imdbID with
            | Except.error _ => none
            | Except.ok details => some (formatMovie details))
        { status := 200, success := true, message := none
          page := some (match page with | none => 1 | some n => if n = 0 then 1 else n)
          totalPages := some (Int.toNat (Int.ceil ((searchData.totalResults.getD 0 : ℚ) / 10)))
          totalResults := some (searchData.totalResults.getD 0)
          movies := some movies
          searchCalled := true, detailCalls := limitedResults.map SearchStub.imdbID }

/-! ### Account store handlers -/

/-- A character admitted by the `[^\s@]` class of the registration
email regex: anything but whitespace and the at-sign. -/
def emailClassOk (c : Char) : Bool :=
  !(jsWhitespace c) && c != '@'

/-- Whether the list has a dot at an inner position: some decomposition
`b = x ++ [.] ++ y` with `x` and `y` both nonempty. -/
def hasInnerDot (b : List Char) : Bool :=
  (List.range b.length).any (fun i =>
    decide (0 < i) && decide (i + 1 < b.length) && (b.getD i ' ' == '.'))

/-- Models the registration email test
`/^[^\s@]+@[^\s@]+\.[^\s@]+$/.test(email)`.  The string matches exactly
when it splits at a unique at-sign into `a @ d` with `a` nonempty, both
parts free of whitespace and further at-signs, and `d` decomposable as
`b . c` with `b`, `c` nonempty — equivalently, `d` has a dot at an
inner position (the dot character itself is admitted by `[^\s@]`, so
`b` and `c` may contain further dots). -/
def emailRegexTest (email : String) : Bool :=
  match email.toList.splitOn '@' with
  | [a, d] => a != [] && a.all emailClassOk && d.all emailClassOk && hasInnerDot d
  | _ => false

/-- One row of the `users` table. -/
structure UserRow where
  id : Nat
  username : String
  email : String
  password : String
  phone : Option String
deriving DecidableEq, Repr

/-- The `users` table together with the auto-increment counter that
supplies `insertId` for the next `INSERT`. -/
structure UserStore where
  rows : List UserRow
  nextId : Nat
deriving DecidableEq, Repr

/-- `SELECT ... FROM users WHERE email = ?`: the rows whose email
equals the argument, in table order. -/
def lookupByEmail (store : UserStore) (email : String) : List UserRow :=
  store.rows.filter (fun r => r.email == email)

/-- Outcome of one `POST /api/register` request: HTTP status, the JSON
body fields, the store after the request, and which store interactions
were performed (`uniquenessQueried` = the `SELECT id ... WHERE email`
lookup ran, `inserted` = the `INSERT` ran). -/
structure RegisterOutcome where
  status : Nat
  success : Bool
  message : String
  userId : Option Nat
  store : UserStore
  uniquenessQueried : Bool
  inserted : Bool
deriving DecidableEq, Repr

/-- Embedding of the `POST /api/register` handler (auth module, lines
374-439).  `username`, `email`, `password`, `phone` are the body fields
(`none` = absent).  In source order: the three required fields must be
truthy (400), the email must pass the regex (400), the password must
have length at least 6 (400); only then the uniqueness lookup runs
(409 if a row exists), and only then the row is inserted with the
bcrypt hash of the password — `hash` abstracts `bcrypt.hash` with the
fixed salt rounds — answering 201 with `userId = insertId`.  (String
length is counted in characters; the repository only ever compares it
against 6 on ASCII passwords, where JS UTF-16 length agrees.) -/
def registerHandler (hash : String → String) (store : UserStore)
    (username email password phone : Option String) : RegisterOutcome :=
  if !truthy username || !truthy email || !truthy password then
    { status := 400, success := false
      message := "Username, email, and password are required"
      userId := none, store := store, uniquenessQueried := false, inserted := false }
  else if !emailRegexTest (email.getD "") then
    { status := 400, success := false
      message := "Please provide a valid email address"
      userId := none, store := store, uniquenessQueried := false, inserted := false }
  else if (password.getD "").length < 6 then
    { status := 400, success := false
      message := "Password must be at least 6 characters long"
      userId := none, store := store, uniquenessQueried := false, inserted := false }
  else if (lookupByEmail store (email.getD "")).length > 0 then
    { status := 409, success := false
      message := "Email already registered"
      userId := none, store := store, uniquenessQueried := true, inserted := false }
  else
    let newRow : UserRow :=
      { id := store.nextId, username := username.getD "", email := email.getD ""
        password := hash (password.getD "")
        phone := if truthy phone then phone else none }
    { status := 201, success := true
      message := "User registered successfully"
      userId := some store.nextId
      store := { rows := store.rows ++ [newRow], nextId := store.nextId + 1 }
      uniquenessQueried := true, inserted := true }

/-- The public shape of a user row returned by a successful login: the
row minus its `password` column. -/
structure PublicUser where
  id : Nat
  username : String
  email : String
  phone : Option String
deriving DecidableEq, Repr

/-- Outcome of one `POST /api/login` request: HTTP status, JSON body
fields, and whether the `SELECT ... WHERE email` lookup was performed. -/
structure LoginOutcome where
  status : Nat
  success : Bool
  message : String
  user : Option PublicUser
  lookupPerformed : Bool
deriving DecidableEq, Repr

/-- Embedding of the `POST /api/login` handler (auth module, lines
448-503).  Both body fields must be truthy (400 with a fixed message,
before any store access); then the rows matching the email are fetched:
no row gives 401 `Invalid email or password`; otherwise
`bcrypt.compare` — abstracted by `compare` — is run against the first
row's stored hash: a mismatch gives the same 401 status and the same
message string, a match gives 200 with the row minus its password. -/
def loginHandler (compare : String → String → Bool) (store : UserStore)
    (email password : Option String) : LoginOutcome :=
  if !truthy email || !truthy password then
    { status := 400, success := false
      message := "Email and password are required"
      user := none, lookupPerformed := false }
  else
    match lookupByEmail store (email.getD "") with
    | [] =>
        { status := 401, success := false
          message := "Invalid email or password"
          user := none, lookupPerformed := true }
    | user :: _ =>
        if compare (password.getD "") user.password then
          { status := 200, success := true
            message := "Login successful"
            user := some { id := user.id, username := user.username
                           email := user.email, phone := user.phone }
            lookupPerformed := true }
        else
          { status := 401, success := false
            message := "Invalid email or password"
            user := none, lookupPerformed := true }

/-! ### Claim C8: posterPath and backdropPath always coincide -/

/-- Claim C8 (confirmed): for every provider record, the normalized
output satisfies `posterPath = backdropPath` — both are derived from
the same single upstream `Poster` field by the same expression, so they
are always equal, whether null or a URL. -/
theorem formatMovie_poster_backdrop_eq (movie : OMDbMovie) :
    (formatMovie movie).posterPath = (formatMovie movie).backdropPath := rfl

/-! ### Claim C1: sentinel handling of the normalizer -/

/-- A provider record carrying the `"N/A"` sentinel in the fields the
normalizer passes through raw. -/
def sentinelRecord : OMDbMovie :=
  { imdbID := some "tt0000001", Title := some "Some Movie"
    Genre := some "N/A", Runtime := some "N/A"
    Director := some "N/A", Actors := some "N/A" }

/-- Claim C1, counterexample: the claim that no field of the
normalizer output ever equals the literal `"N/A"` is false — on a
record whose `Genre`, `Runtime`, `Director` and `Actors` carry the
sentinel, all four corresponding output fields are the literal
sentinel string. -/
theorem formatMovie_sentinel_leaks :
    (formatMovie sentinelRecord).genre = "N/A" ∧
    (formatMovie sentinelRecord).runtime = some "N/A" ∧
    (formatMovie sentinelRecord).director = some "N/A" ∧
    (formatMovie sentinelRecord).actors = some "N/A" := by
  refine ⟨rfl, rfl, rfl, rfl⟩

/-- Claim C1 (corrected): the sentinel-to-null conversion holds
exactly for `overview`, `posterPath`, `backdropPath`, `releaseDate` and
`rating` — whenever the backing provider field is absent, empty, or
`"N/A"`, the output is the documented default (`'No description
available.'`, `null`, `null`, `null`, `null` respectively), and none of
these four string fields can ever carry the literal `"N/A"`.  (The
remaining fields `id`, `title`, `genre`, `runtime`, `director`,
`actors` pass the provider value through raw, per the counterexample.) -/
theorem formatMovie_sentinel_converted_fields (movie : OMDbMovie) :
    (presentNonSentinel movie.Plot = false →
      (formatMovie movie).overview = "No description available.") ∧
    (presentNonSentinel movie.Poster = false →
      (formatMovie movie).posterPath = none ∧
      (formatMovie movie).backdropPath = none) ∧
    (presentNonSentinel movie.Year = false →
      (formatMovie movie).releaseDate = none) ∧
    (presentNonSentinel movie.imdbRating = false →
      (formatMovie movie).rating = NumVal.null) ∧
    (formatMovie movie).overview ≠ "N/A" ∧
    (formatMovie movie).posterPath ≠ some "N/A" ∧
    (formatMovie movie).backdropPath ≠ some "N/A" ∧
    (formatMovie movie).releaseDate ≠ some "N/A" := by
  have hne : ∀ o : Option String, presentNonSentinel o = true → o ≠ some "N/A" := by
    intro o h
    cases o with
    | none => simp
    | some s =>
        simp only [presentNonSentinel, Bool.and_eq_true, Option.getD_some] at h
        intro hc
        rw [Option.some.injEq] at hc
        subst hc
        simp at h
  refine ⟨?_, ?_, ?_, ?_, ?_, ?_, ?_, ?_⟩
  · intro h; simp [formatMovie, h]
  · intro h; simp [formatMovie, h]
  · intro h; simp [formatMovie, h]
  · intro h; simp [formatMovie, h]
  · by_cases h : presentNonSentinel movie.Plot
    · have h2 : movie.Plot.getD "" ≠ "N/A" := by
        have h3 := h
        simp only [presentNonSentinel, Bool.and_eq_true, bne_iff_ne] at h3
        exact h3.2
      simp [formatMovie, h, h2]
    · simp only [Bool.not_eq_true] at h
      simp [formatMovie, h]
  · by_cases h : presentNonSentinel movie.Poster
    · have := hne movie.Poster h
      simp [formatMovie, h, this]
    · simp only [Bool.not_eq_true] at h
      simp [formatMovie, h]
  · by_cases h : presentNonSentinel movie.Poster
    · have := hne movie.Poster h
      simp [formatMovie, h, this]
    · simp only [Bool.not_eq_true] at h
      simp [formatMovie, h]
  · by_cases h : presentNonSentinel movie.Year
    · have := hne movie.Year h
      simp [formatMovie, h, this]
    · simp only [Bool.not_eq_true] at h
      simp [formatMovie, h]

/-- A provider record with every normalizer-converted field absent or
sentinel-valued. -/
def allAbsentRecord : OMDbMovie :=
  { Title := some "Bare", Plot := some "N/A", Poster := some "N/A"
    Year := none, imdbRating := some "N/A" }

/-- Witness for the corrected claim C1: on a concrete record whose
`Plot`, `Poster` and `imdbRating` are the sentinel and whose `Year` is
absent, the converted fields all take their documented defaults. -/
theorem formatMovie_sentinel_converted_fields_witness :
    (formatMovie allAbsentRecord).overview = "No description available." ∧
    (formatMovie allAbsentRecord).posterPath = none ∧
    (formatMovie allAbsentRecord).backdropPath = none ∧
    (formatMovie allAbsentRecord).releaseDate = none ∧
    (formatMovie allAbsentRecord).rating = NumVal.null := by
  obtain ⟨h1, h2, h3, h4, -⟩ := formatMovie_sentinel_converted_fields allAbsentRecord
  exact ⟨h1 (by decide), (h2 (by decide)).1, (h2 (by decide)).2,
    h3 (by decide), h4 (by decide)⟩

/-! ### Claim C5: numeric parsing in the normalizer -/

/-- A provider record whose rating is truthy, non-sentinel and
unparseable, and whose vote count is the sentinel string. -/
def nanRecord : OMDbMovie :=
  { Title := some "Unrated Movie", imdbRating := some "unrated"
    imdbVotes := some "N/A" }

/-- Claim C5, counterexample: the claim that numeric parsing yields
null on every failure is false — on a record with `imdbRating`
`"unrated"` (truthy, not the sentinel, unparseable) and `imdbVotes`
`"N/A"` (truthy, so the `imdbVotes ? parseInt(...) : null` guard takes
the parse branch), both `rating` and `voteCount` come out as the
non-null non-numeric value `NaN`. -/
theorem formatMovie_numeric_nan :
    (formatMovie nanRecord).rating = NumVal.nan ∧
    (formatMovie nanRecord).voteCount = NumVal.nan := by
  refine ⟨rfl, rfl⟩

/-- Claim C5 (corrected): the normalizer's numeric parsing is total
(never throws), with: `rating` null exactly when `imdbRating` is
absent, empty, or the sentinel; the parsed decimal value when the field
parses; and `NaN` — not null — when the field is truthy, non-sentinel
and unparseable.  `voteCount` is null exactly when `imdbVotes` is
absent or empty; the integer parsed after stripping the comma
thousands separators when that parses; and `NaN` — not null — on parse
failure (in particular when `imdbVotes` is the sentinel `"N/A"`). -/
theorem formatMovie_numeric_parsing (movie : OMDbMovie) :
    (presentNonSentinel movie.imdbRating = false →
      (formatMovie movie).rating = NumVal.null) ∧
    (∀ q : ℚ, presentNonSentinel movie.imdbRating = true →
      jsParseFloat (movie.imdbRating.getD "") = some q →
      (formatMovie movie).rating = NumVal.val q) ∧
    (presentNonSentinel movie.imdbRating = true →
      jsParseFloat (movie.imdbRating.getD "") = none →
      (formatMovie movie).rating = NumVal.nan) ∧
    (truthy movie.imdbVotes = false →
      (formatMovie movie).voteCount = NumVal.null) ∧
    (∀ k : Int, truthy movie.imdbVotes = true →
      jsParseInt (stripCommas (movie.imdbVotes.getD "")) = some k →
      (formatMovie movie).voteCount = NumVal.val (k : ℚ)) ∧
    (truthy movie.imdbVotes = true →
      jsParseInt (stripCommas (movie.imdbVotes.getD "")) = none →
      (formatMovie movie).voteCount = NumVal.nan) := by
  refine ⟨?_, ?_, ?_, ?_, ?_, ?_⟩
  · intro h; simp [formatMovie, h]
  · intro q h hp; simp [formatMovie, h, hp]
  · intro h hp; simp [formatMovie, h, hp]
  · intro h; simp [formatMovie, h]
  · intro k h hp; simp [formatMovie, h, hp]
  · intro h hp; simp [formatMovie, h, hp]

/-- A provider record with a parseable rating and vote count. -/
def parseableRecord : OMDbMovie :=
  { Title := some "Inception", imdbRating := some "8.8"
    imdbVotes := some "2,345,678" }

/-- Witness for the corrected claim C5: the partial-failure record
`nanRecord` exercises the two `NaN` branches, `parseableRecord` the two
value branches, and a record with both fields absent the two null
branches. -/
theorem formatMovie_numeric_parsing_witness :
    (formatMovie { Title := some "Empty" }).rating = NumVal.null ∧
    (formatMovie { Title := some "Empty" }).voteCount = NumVal.null ∧
    (formatMovie parseableRecord).rating = NumVal.val (44 / 5 : ℚ) ∧
    (formatMovie parseableRecord).voteCount = NumVal.val ((2345678 : Int) : ℚ) ∧
    (formatMovie nanRecord).rating = NumVal.nan ∧
    (formatMovie nanRecord).voteCount = NumVal.nan := by
  obtain ⟨e1, -, -, e4, -, -⟩ :=
    formatMovie_numeric_parsing { Title := some "Empty" }
  obtain ⟨-, p2, -, -, p5, -⟩ := formatMovie_numeric_parsing parseableRecord
  obtain ⟨-, -, n3, -, -, n6⟩ := formatMovie_numeric_parsing nanRecord
  refine ⟨e1 (by decide), e4 (by decide), ?_, ?_, ?_, ?_⟩
  · refine p2 (44 / 5 : ℚ) (by decide) ?_
    have h : jsParseFloat (parseableRecord.imdbRating.getD "") =
        some (1 * (((8 : Nat) : ℚ) + ((8 : Nat) : ℚ) / 10 ^ (1 : Nat))) := rfl
    rw [h, Option.some.injEq]
    norm_num
  · exact p5 (2345678 : Int) (by decide) rfl
  · exact n3 (by decide) (by decide)
  · exact n6 (by decide) (by decide)

/-! ### Claim C2: partial-failure behaviour of the batch fetcher -/

/-- A provider record whose lookup succeeds with a conventional
payload. -/
def recA : OMDbMovie :=
  { imdbID := some "tt0000001", Title := some "Movie A"
    Plot := some "A plot." }

/-- A provider record delivered with HTTP success but lacking any
`Title` field. -/
def recNoTitle : OMDbMovie := { Plot := some "A payload without a title." }

/-- A provider for which key `"A"` resolves normally, key `"B"` throws
(OMDb `Movie not found!`), and every other key resolves with a payload
lacking a recognizable title field. -/
def titlelessProvider : TitleProvider := fun title =>
  if title = "A" then Except.ok recA
  else if title = "B" then Except.error "Movie not found!"
  else Except.ok recNoTitle

/-- Claim C2, counterexample: the claim that a key whose response lacks
a recognizable title field is dropped is false.  For keys
`["A", "B", "D"]`, where B's call throws and D's response has no
`Title`, the claim predicts the one-element result `[norm(A)]`; the
code instead returns a two-element array `[norm(A), undefined]` — the
`filter(movie => movie !== null)` removes the `null` produced by B's
catch branch but keeps the `undefined` produced when the
`if (data && data.Title)` guard falls through. -/
theorem fetchMoviesByTitles_titleless_kept :
    fetchMoviesByTitles titlelessProvider ["A", "B", "D"] =
      [CallResult.movie (formatMovie recA), CallResult.undef] ∧
    (fetchMoviesByTitles titlelessProvider ["A", "B", "D"]).length = 2 := by
  refine ⟨rfl, rfl⟩

/-- Claim C2 (corrected): the batch fetcher never throws on a partial
failure, and its result is the original-order fold of the per-key
outcomes in which a key whose provider call throws contributes nothing
— it is silently dropped — while a key whose call resolves contributes
its normalized record when the response has a truthy title, and an
`undefined` entry (not dropped) when the response lacks a recognizable
title field.  In particular, for keys `[A, B, C]` with B's call
throwing and A, C resolving with titled records, the result is
`[norm(A), norm(C)]`, order-preserving, of length 2. -/
theorem fetchMoviesByTitles_characterization
    (provider : TitleProvider) (titles : List String) :
    fetchMoviesByTitles provider titles =
      titles.foldr (fun title acc =>
        match provider title with
        | Except.error _ => acc
        | Except.ok data =>
            (if truthy data.Title then CallResult.movie (formatMovie data)
             else CallResult.undef) :: acc) [] := by
  induction titles with
  | nil => rfl
  | cons t ts ih =>
      simp only [fetchMoviesByTitles, List.map_cons, List.filter_cons,
        List.foldr_cons] at *
      cases h : provider t with
      | error e => simp [titleCall, h, ih]
      | ok data =>
          cases ht : truthy data.Title <;> simp [titleCall, h, ht, ih]

/-! ### Claim C4: search detail cap and pagination arithmetic -/

/-- Claim C4 (confirmed): for every search request with a non-empty
query and a configured key whose provider text search resolves, the
detail-fetch stage receives exactly the ids of the first 8 hits
(`Search.slice(0, 8)`) — at most 8, regardless of how many hits the
provider returned — at most 8 movies are returned, and the response
pagination comes from the provider's reported total: `totalResults` is
the reported total passed through, and `totalPages` is the ceiling of
that same reported total divided by the fixed page size 10 — not a
function of the number of detail-fetched movies actually returned. -/
theorem search_cap_and_pagination (apiKey : Option String)
    (query : Option String) (page : Option Nat)
    (detailOracle : String → Except String OMDbMovie)
    (searchData : SearchData) (hits : List SearchStub)
    (hq : truthy query = true) (hk : keyMissing apiKey = false)
    (hs : searchData.Search = some hits) :
    (searchHandler apiKey query page (Except.ok searchData) detailOracle).detailCalls
      = (hits.take 8).map SearchStub.imdbID ∧
    (searchHandler apiKey query page (Except.ok searchData) detailOracle).detailCalls.length
      ≤ 8 ∧
    (∀ ms, (searchHandler apiKey query page (Except.ok searchData) detailOracle).movies
      = some ms → ms.length ≤ 8) ∧
    (searchHandler apiKey query page (Except.ok searchData) detailOracle).totalResults
      = some (searchData.totalResults.getD 0) ∧
    (searchHandler apiKey query page (Except.ok searchData) detailOracle).totalPages
      = some (Int.toNat (Int.ceil
          (((searchData.totalResults.getD 0 : Nat) : ℚ) / 10))) := by
  refine ⟨?_, ?_, ?_, ?_, ?_⟩
  · simp [searchHandler, hq, hk, hs]
  · simp only [searchHandler, hq, hk, hs]
    simp [List.length_take]
  · intro ms hms
    simp only [searchHandler, hq, hk, hs, Bool.not_true, Bool.false_eq_true,
      if_false, Option.some.injEq] at hms
    subst hms
    calc (List.filterMap _ (hits.take 8)).length
        ≤ (hits.take 8).length := List.length_filterMap_le _ _
      _ ≤ 8 := by simp [List.length_take]
  · simp [searchHandler, hq, hk, hs]
  · simp [searchHandler, hq, hk, hs]

/-- Twelve one-field search hits. -/
def twelveHits : List SearchStub :=
  [⟨"tt01"⟩, ⟨"tt02"⟩, ⟨"tt03"⟩, ⟨"tt04"⟩, ⟨"tt05"⟩, ⟨"tt06"⟩,
   ⟨"tt07"⟩, ⟨"tt08"⟩, ⟨"tt09"⟩, ⟨"tt10"⟩, ⟨"tt11"⟩, ⟨"tt12"⟩]

/-- Witness for claim C4: on a search whose provider page carries 12
hits and reports 42 total results while every detail fetch fails, only
the first 8 ids reach the detail stage, `totalResults` is 42, and
`totalPages` is `ceil(42 / 10) = 5` — even though the returned movie
array is empty. -/
theorem search_cap_and_pagination_witness :
    (searchHandler (some "key") (some "batman") none
        (Except.ok { Search := some twelveHits, totalResults := some 42 })
        (fun _ => Except.error "timeout")).detailCalls
      = ["tt01", "tt02", "tt03", "tt04", "tt05", "tt06", "tt07", "tt08"] ∧
    (searchHandler (some "key") (some "batman") none
        (Except.ok { Search := some twelveHits, totalResults := some 42 })
        (fun _ => Except.error "timeout")).totalResults = some 42 ∧
    (searchHandler (some "key") (some "batman") none
        (Except.ok { Search := some twelveHits, totalResults := some 42 })
        (fun _ => Except.error "timeout")).totalPages = some 5 ∧
    (searchHandler (some "key") (some "batman") none
        (Except.ok { Search := some twelveHits, totalResults := some 42 })
        (fun _ => Except.error "timeout")).movies = some [] := by
  obtain ⟨h1, -, -, h4, h5⟩ := search_cap_and_pagination (some "key")
    (some "batman") none (fun _ => Except.error "timeout")
    { Search := some twelveHits, totalResults := some 42 } twelveHits
    (by decide) (by decide) rfl
  refine ⟨by rw [h1]; rfl, by rw [h4]; rfl, ?_, by rfl⟩
  rw [h5]
  norm_num
  have hc : ⌈(21 / 5 : ℚ)⌉ = (5 : ℤ) := by
    rw [Int.ceil_eq_iff]
    norm_num
  rw [hc]
  rfl

/-! ### Claim C9: empty search query rejected before any provider call -/

/-- Claim C9 (confirmed): for every search request whose `query`
parameter is absent or the empty string, the handler answers HTTP 400
with `success: false` and performs no provider interaction at all —
neither the text-search call nor any detail call — in every
configuration, including one with no provider API key configured
(the `!query` guard precedes the API-key guard). -/
theorem search_empty_query_rejected (apiKey : Option String)
    (page : Option Nat) (searchOracle : Except String SearchData)
    (detailOracle : String → Except String OMDbMovie)
    (query : Option String) (hq : truthy query = false) :
    (searchHandler apiKey query page searchOracle detailOracle).status = 400 ∧
    (searchHandler apiKey query page searchOracle detailOracle).success = false ∧
    (searchHandler apiKey query page searchOracle detailOracle).searchCalled = false ∧
    (searchHandler apiKey query page searchOracle detailOracle).detailCalls = [] := by
  unfold searchHandler
  simp [hq]

/-- Witness for claim C9: a request with `query = ""` against a
configuration with no API key at all is rejected with 400 and no
provider call. -/
theorem search_empty_query_rejected_witness :
    (searchHandler none (some "") none (Except.error "never called")
        (fun _ => Except.error "never called")).status = 400 ∧
    (searchHandler none (some "") none (Except.error "never called")
        (fun _ => Except.error "never called")).success = false ∧
    (searchHandler none (some "") none (Except.error "never called")
        (fun _ => Except.error "never called")).searchCalled = false ∧
    (searchHandler none (some "") none (Except.error "never called")
        (fun _ => Except.error "never called")).detailCalls = [] :=
  search_empty_query_rejected none none (Except.error "never called")
    (fun _ => Except.error "never called") (some "") (by decide)

/-! ### Claim C6: registration validation precedes any store access -/

/-- Claim C6 (confirmed): for every registration request failing a
local validation — any of username/email/password missing (falsy), the
email failing the basic regex, or the password shorter than 6
characters — the handler answers HTTP 400 before any store
interaction: the uniqueness lookup is not issued, no row is inserted,
and the store is unchanged.  In particular (password disjunct with the
other checks passing) the password-length check precedes the
uniqueness check. -/
theorem register_validation_precedes_store (hash : String → String)
    (store : UserStore) (username email password phone : Option String)
    (h : truthy username = false ∨ truthy email = false ∨
         truthy password = false ∨ emailRegexTest (email.getD "") = false ∨
         (password.getD "").length < 6) :
    (registerHandler hash store username email password phone).status = 400 ∧
    (registerHandler hash store username email password phone).uniquenessQueried
      = false ∧
    (registerHandler hash store username email password phone).inserted = false ∧
    (registerHandler hash store username email password phone).store = store := by
  unfold registerHandler
  split_ifs with h1 h2 h3 h4 h5
  · exact ⟨rfl, rfl, rfl, rfl⟩
  · exact ⟨rfl, rfl, rfl, rfl⟩
  · exact ⟨rfl, rfl, rfl, rfl⟩
  · exfalso; rcases h with h | h | h | h | h <;> simp_all
  · exfalso; rcases h with h | h | h | h | h <;> simp_all
  · exfalso; rcases h with h | h | h | h | h <;> simp_all

/-- Witness for claim C6: registering with the 5-character password
`"abc12"` (username and email present and well-formed) yields 400 with
no uniqueness query, no insert, and an unchanged store. -/
theorem register_validation_precedes_store_witness :
    (registerHandler (fun s => s) { rows := [], nextId := 1 }
        (some "alice") (some "alice@example.com") (some "abc12") none).status
      = 400 ∧
    (registerHandler (fun s => s) { rows := [], nextId := 1 }
        (some "alice") (some "alice@example.com") (some "abc12") none).uniquenessQueried
      = false ∧
    (registerHandler (fun s => s) { rows := [], nextId := 1 }
        (some "alice") (some "alice@example.com") (some "abc12") none).inserted
      = false ∧
    (registerHandler (fun s => s) { rows := [], nextId := 1 }
        (some "alice") (some "alice@example.com") (some "abc12") none).store
      = { rows := [], nextId := 1 } :=
  register_validation_precedes_store (fun s => s) { rows := [], nextId := 1 }
    (some "alice") (some "alice@example.com") (some "abc12") none (by decide)

/-! ### Claim C7: duplicate email conflict, fresh email insert -/

/-- Claim C7 (confirmed): for every registration request passing local
validation, if the store already has a row with the requested email the
handler answers HTTP 409, attempts no insert, and leaves the store
unchanged; if no such row exists it inserts exactly one row and answers
HTTP 201 carrying the store-assigned surrogate id (`insertId`, the
store's next auto-increment value). -/
theorem register_conflict_or_insert (hash : String → String)
    (store : UserStore) (username email password phone : Option String)
    (hu : truthy username = true) (he : truthy email = true)
    (hp : truthy password = true)
    (hr : emailRegexTest (email.getD "") = true)
    (hl : 6 ≤ (password.getD "").length) :
    ((lookupByEmail store (email.getD "")).length > 0 →
      (registerHandler hash store username email password phone).status = 409 ∧
      (registerHandler hash store username email password phone).inserted = false ∧
      (registerHandler hash store username email password phone).store = store) ∧
    ((lookupByEmail store (email.getD "")).length = 0 →
      (registerHandler hash store username email password phone).status = 201 ∧
      (registerHandler hash store username email password phone).userId
        = some store.nextId ∧
      (registerHandler hash store username email password phone).inserted = true ∧
      (registerHandler hash store username email password phone).store.rows.length
        = store.rows.length + 1) := by
  have hl2 : ¬ (password.getD "").length < 6 := Nat.not_lt.mpr hl
  constructor
  · intro hd
    simp [registerHandler, hu, he, hp, hr, hl2, hd]
  · intro hf
    simp [registerHandler, hu, he, hp, hr, hl2, hf]

/-- The one pre-existing account row used by the account-store
witnesses. -/
def rowAlice : UserRow :=
  { id := 1, username := "alice", email := "alice@example.com"
    password := "stored-hash-1", phone := none }

/-- A store holding `rowAlice`, with auto-increment counter at 2. -/
def storeW : UserStore := { rows := [rowAlice], nextId := 2 }

/-- Witness for claim C7: against a store already holding
`alice@example.com`, re-registering that email yields 409 with no
insert and an unchanged store, while registering the fresh
`bob@example.com` yields 201 with the store-assigned id 2 and exactly
one more row. -/
theorem register_conflict_or_insert_witness :
    ((registerHandler (fun s => s) storeW (some "alice2")
        (some "alice@example.com") (some "secret1") none).status = 409 ∧
      (registerHandler (fun s => s) storeW (some "alice2")
        (some "alice@example.com") (some "secret1") none).inserted = false ∧
      (registerHandler (fun s => s) storeW (some "alice2")
        (some "alice@example.com") (some "secret1") none).store = storeW) ∧
    ((registerHandler (fun s => s) storeW (some "bob")
        (some "bob@example.com") (some "secret1") none).status = 201 ∧
      (registerHandler (fun s => s) storeW (some "bob")
        (some "bob@example.com") (some "secret1") none).userId = some 2 ∧
      (registerHandler (fun s => s) storeW (some "bob")
        (some "bob@example.com") (some "secret1") none).inserted = true ∧
      (registerHandler (fun s => s) storeW (some "bob")
        (some "bob@example.com") (some "secret1") none).store.rows.length
        = storeW.rows.length + 1) := by
  constructor
  · obtain ⟨hdup, -⟩ := register_conflict_or_insert (fun s => s) storeW
      (some "alice2") (some "alice@example.com") (some "secret1") none
      (by decide) (by decide) (by decide) (by decide) (by decide)
    obtain ⟨s1, s2, s3⟩ := hdup (by decide)
    exact ⟨s1, s2, s3⟩
  · obtain ⟨-, hfresh⟩ := register_conflict_or_insert (fun s => s) storeW
      (some "bob") (some "bob@example.com") (some "secret1") none
      (by decide) (by decide) (by decide) (by decide) (by decide)
    obtain ⟨s1, s2, s3, s4⟩ := hfresh (by decide)
    exact ⟨s1, s2, s3, s4⟩

/-! ### Claim C3: unknown email and wrong password are indistinguishable -/

/-- Claim C3 (confirmed): for every pair of login requests — one whose
email matches no stored row, one whose email matches a row but whose
password fails the hash comparison — the two responses carry the same
HTTP status 401 and the same message string (the literal
`Invalid email or password` in both branches), so the caller cannot
tell whether the email exists. -/
theorem login_unknown_email_indistinguishable
    (compare : String → String → Bool) (store : UserStore)
    (e1 p1 e2 p2 : Option String) (u : UserRow) (rest : List UserRow)
    (h1e : truthy e1 = true) (h1p : truthy p1 = true)
    (h1 : lookupByEmail store (e1.getD "") = [])
    (h2e : truthy e2 = true) (h2p : truthy p2 = true)
    (h2 : lookupByEmail store (e2.getD "") = u :: rest)
    (hc : compare (p2.getD "") u.password = false) :
    (loginHandler compare store e1 p1).status = 401 ∧
    (loginHandler compare store e2 p2).status = 401 ∧
    (loginHandler compare store e1 p1).success = false ∧
    (loginHandler compare store e2 p2).success = false ∧
    (loginHandler compare store e1 p1).message
      = (loginHandler compare store e2 p2).message := by
  unfold loginHandler
  simp [h1e, h1p, h2e, h2p, h1, h2, hc]

/-- Witness for claim C3: against the store holding only `rowAlice`, a
login with the unknown `bob@example.com` and a login with
`alice@example.com` plus a password failing the comparison both yield
status 401 with equal message text. -/
theorem login_unknown_email_indistinguishable_witness :
    (loginHandler (fun p h => p == h) storeW
        (some "bob@example.com") (some "whatever")).status = 401 ∧
    (loginHandler (fun p h => p == h) storeW
        (some "alice@example.com") (some "wrong-password")).status = 401 ∧
    (loginHandler (fun p h => p == h) storeW
        (some "bob@example.com") (some "whatever")).success = false ∧
    (loginHandler (fun p h => p == h) storeW
        (some "alice@example.com") (some "wrong-password")).success = false ∧
    (loginHandler (fun p h => p == h) storeW
        (some "bob@example.com") (some "whatever")).message
      = (loginHandler (fun p h => p == h) storeW
          (some "alice@example.com") (some "wrong-password")).message :=
  login_unknown_email_indistinguishable (fun p h => p == h) storeW
    (some "bob@example.com") (some "whatever")
    (some "alice@example.com") (some "wrong-password") rowAlice []
    (by decide) (by decide) (by decide) (by decide) (by decide)
    (by decide) (by decide)

/-! ### Claim C10: empty-string credentials are treated as missing -/

/-- Claim C10 (confirmed): for every login request in which email or
password is present but equal to the empty string, the falsiness check
`!email || !password` fires: the handler answers HTTP 400 with the
message `Email and password are required` and performs no store lookup
— the request never reaches the 401 credential-mismatch path. -/
theorem login_empty_credential_is_missing
    (compare : String → String → Bool) (store : UserStore)
    (email password : Option String)
    (h : email = some "" ∨ password = some "") :
    (loginHandler compare store email password).status = 400 ∧
    (loginHandler compare store email password).message
      = "Email and password are required" ∧
    (loginHandler compare store email password).lookupPerformed = false := by
  unfold loginHandler
  rcases h with h | h <;> subst h <;> simp [truthy]

/-- Witness for claim C10: a login with a present-but-empty email and
a nonempty password yields 400, the required-fields message, and no
store lookup. -/
theorem login_empty_credential_is_missing_witness :
    (loginHandler (fun p h => p == h) storeW (some "") (some "password1")).status
      = 400 ∧
    (loginHandler (fun p h => p == h) storeW (some "") (some "password1")).message
      = "Email and password are required" ∧
    (loginHandler (fun p h => p == h) storeW
        (some "") (some "password1")).lookupPerformed = false :=
  login_empty_credential_is_missing (fun p h => p == h) storeW
    (some "") (some "password1") (Or.inl rfl)
